import Mathlib

/-!
# Verification of the `logger` package (heilart1n/logger)

A shallow embedding of `logger.go` in Lean 4.  Go strings become `String`,
`time.Time` becomes a calendar-date record (the code only ever inspects
`.Day()` and formats with `time.DateOnly`), `*os.File` becomes a record of
the opened file name, the two `slog` handlers become a two-constructor
inductive, I/O fallibility is an explicit environment of `Option` errors,
and `panic` becomes the `.error` branch of `Except`.  The background
rotation goroutine is embedded as an explicit step function
(`watcherCheck`, one loop iteration after the hourly sleep) together with a
fine-grained action model of its two critical sections for the
atomicity analysis.
-/

namespace GoLogger

/-- The slice of `time.Time` the code observes: a calendar date in local
time.  `logger.go` only calls `.Day()` (day of month) and
`.Format(time.DateOnly)` (`YYYY-MM-DD`). -/
structure GoTime where
  year : Nat
  month : Nat
  day : Nat
  deriving DecidableEq, Repr

/-- `time.Time.Day()`: the day of the month. -/
def GoTime.Day (t : GoTime) : Nat := t.day

/-- Zero-pad a numeral to two digits, as Go's `"01"`/`"02"` layout verbs do. -/
def pad2 (n : Nat) : String := if n < 10 then "0" ++ toString n else toString n

/-- Zero-pad a numeral to four digits, as Go's `"2006"` layout verb does. -/
def pad4 (n : Nat) : String :=
  if n < 10 then "000" ++ toString n
  else if n < 100 then "00" ++ toString n
  else if n < 1000 then "0" ++ toString n
  else toString n

/-- `t.Format(time.DateOnly)`: the date rendered `YYYY-MM-DD`. -/
def formatDateOnly (t : GoTime) : String :=
  pad4 t.year ++ "-" ++ pad2 t.month ++ "-" ++ pad2 t.day

/-- `type Mod string` -/
abbrev Mod := String
/-- `type Type string` (Go's `Type`; `Type` is reserved in Lean) -/
abbrev LogType := String
/-- `type Path string` -/
abbrev LogPath := String

def ModProd : Mod := "prod"
def ModDev : Mod := "dev"
def TypeService : LogType := "service"
def TypeRequest : LogType := "request"
def DefaultMod : Mod := ModDev
def DefaultType : LogType := TypeService
def DefaultServicePath : LogPath := "./logs/service_logs/"
def DefaultRequestPath : LogPath := "./logs/request_logs/"

/-- `func (m Mod) Empty() bool { return m == "" }` -/
def Mod.Empty (m : Mod) : Bool := m = ""
/-- `func (t Type) Empty() bool { return t == "" }` -/
def LogType.Empty (t : LogType) : Bool := t = ""
/-- `func (p Path) Empty() bool { return p == "" }` -/
def LogPath.Empty (p : LogPath) : Bool := p = ""

/-- An open `*os.File`: we record the name it was opened under. -/
structure FileHandle where
  name : String
  isOpen : Bool
  deriving DecidableEq, Repr

/-- The I/O errors `openLogFile` can surface. -/
inductive IOErr where
  | mkdirFailed
  | openFailed
  deriving DecidableEq, Repr

/-- The ambient filesystem's disposition: whether `os.MkdirAll` and
`os.OpenFile` fail, and with which error.  `none` means success. -/
structure IOEnv where
  mkdirErr : Option IOErr
  openErr : Option IOErr
  deriving DecidableEq, Repr

/-- An environment in which both filesystem calls succeed. -/
def okEnv : IOEnv := ⟨none, none⟩

deriving instance DecidableEq for Except

/-- Whether an `Except` value is the success branch. -/
def exceptIsOk {ε α : Type} : Except ε α → Bool
  | .ok _ => true
  | .error _ => false

/-- `if mod.Empty() { mod = DefaultMod }` (init, line 57). -/
def resolveMod (m : Mod) : Mod := if Mod.Empty m then DefaultMod else m

/-- `if lType.Empty() { lType = DefaultType }` (init, line 60). -/
def resolveType (t : LogType) : LogType :=
  if LogType.Empty t then DefaultType else t

/-- `if sPath.Empty() { sPath = DefaultServicePath }` (init line 63,
CreateProdLogger line 158). -/
def resolveServicePath (p : LogPath) : LogPath :=
  if LogPath.Empty p then DefaultServicePath else p

/-- `if logsDict.Empty() { logsDict = DefaultRequestPath }`
(CreateRequestLogger, line 178). -/
def resolveRequestPath (p : LogPath) : LogPath :=
  if LogPath.Empty p then DefaultRequestPath else p

/-- The filename computed inside `openLogFile`:
`path.String() + fmt.Sprintf("%s.txt", time.Now().Format(time.DateOnly))` —
plain string concatenation, no separator is inserted. -/
def logFileName (path : LogPath) (now : GoTime) : String :=
  path ++ (formatDateOnly now ++ ".txt")

/-- `func openLogFile(path Path) (*os.File, error)`: build the dated name,
`os.MkdirAll(path, os.ModePerm)`, then `os.OpenFile(p, APPEND|CREATE|WRONLY, 0644)`. -/
def openLogFile (env : IOEnv) (path : LogPath) (now : GoTime) :
    Except IOErr FileHandle :=
  let p := logFileName path now
  match env.mkdirErr with
  | some e => .error e
  | none =>
    match env.openErr with
    | some e => .error e
    | none => .ok ⟨p, true⟩

/-- The two concrete `slog.Handler` shapes the factory can build:
the production JSON handler over `io.MultiWriter(os.Stdout, file)` and the
development `tint` console handler over `os.Stderr`. -/
inductive Handler where
  | jsonProd (file : FileHandle)
  | devTint
  deriving DecidableEq, Repr

/-- `func prodHandler(path Path) slog.Handler`: open the dated log file,
`panic(err)` (here: propagate `.error`) on failure, else the JSON handler
holding the opened file. -/
def prodHandler (env : IOEnv) (path : LogPath) (now : GoTime) :
    Except IOErr Handler :=
  match openLogFile env path now with
  | .error e => .error e
  | .ok file => .ok (.jsonProd file)

/-- `func devHandler() slog.Handler`: the colorized tint console handler. -/
def devHandler : Handler := .devTint

/-- `func selectHandler(mod Mod, path Path) slog.Handler`: production mode
gets the prod handler, everything else falls through to the dev handler. -/
def selectHandler (env : IOEnv) (mod : Mod) (path : LogPath) (now : GoTime) :
    Except IOErr Handler :=
  if mod = ModProd then prodHandler env path now else .ok devHandler

/-- `type Logger struct`: the embedded `*slog.Logger` (as the handler it
wraps, `none` until `setLogger` runs), the `logFile *os.File` field (which
no statement in `logger.go` ever assigns), the path, mode, category and
last-rotation date.  `watcherStarted` is ghost state recording whether
`ll.watcher()` was invoked, i.e. whether the rotation goroutine exists. -/
structure Logger where
  slogLogger : Option Handler
  logFile : Option FileHandle
  logsDict : LogPath
  mod : Mod
  loggerType : LogType
  today : GoTime
  watcherStarted : Bool
  deriving DecidableEq, Repr

/-- `func build(logsDict Path, mod Mod, lType Type) *Logger` -/
def build (logsDict : LogPath) (mod : Mod) (lType : LogType) (now : GoTime) :
    Logger :=
  { slogLogger := none
    logFile := none
    logsDict := logsDict
    mod := mod
    loggerType := lType
    today := now
    watcherStarted := false }

/-- `func (ll *Logger) setLogger(logger *slog.Logger)` (the lock-protected
field write; locking is modelled separately in the action model below). -/
def setLogger (ll : Logger) (h : Handler) : Logger :=
  { ll with slogLogger := some h }

/-- `func (ll *Logger) watcher()`: spawning the rotation goroutine. -/
def startWatcher (ll : Logger) : Logger := { ll with watcherStarted := true }

/-- One iteration of the watcher loop body (after the hourly sleep):
read `ll.today.Day() != time.Now().Day()` under `RLock`; if it differs,
`setLogger(slog.New(prodHandler(ll.logsDict)))` and then write
`ll.today = time.Now()`.  Returns the new logger and whether a rotation
(open + swap) was performed; a `panic` in `prodHandler` is `.error`. -/
def watcherCheck (env : IOEnv) (ll : Logger) (now : GoTime) :
    Except IOErr (Logger × Bool) :=
  if GoTime.Day ll.today ≠ GoTime.Day now then
    match prodHandler env ll.logsDict now with
    | .error e => .error e
    | .ok h => .ok ({ setLogger ll h with today := now }, true)
  else
    .ok (ll, false)

/-- The watcher goroutine's effect over a list of observation dates: one
`watcherCheck` per hourly wakeup.  A logger whose `watcher()` was never
called has no goroutine, so its state never changes. -/
def runWatcher (env : IOEnv) (ll : Logger) (ds : List GoTime) :
    Except IOErr Logger :=
  if ll.watcherStarted then
    ds.foldlM (fun l d => (watcherCheck env l d).map Prod.fst) ll
  else
    .ok ll

/-- The process-wide mutable globals: `instance *Logger` and the `slog`
package default set by `slog.SetDefault`. -/
structure GlobalState where
  instSlot : Option Logger
  slogDefault : Option Handler
  deriving DecidableEq, Repr

/-- `func Get() *Logger { return instance }` -/
def Get (g : GlobalState) : Option Logger := g.instSlot

/-- The three environment variables read by `func init()`. -/
structure EnvVars where
  loggerMod : String
  loggerType : String
  loggerServicePath : String
  deriving DecidableEq, Repr

/-- `func init()`: read `LOGGER_MOD`, `LOGGER_TYPE`, `LOGGER_SERVICE_PATH`,
substitute defaults for empty values, `build`, select the handler, start
the watcher only in production mode, install the singleton and the `slog`
default.  A `panic` escaping construction is `.error`. -/
def initLogger (env : IOEnv) (g : GlobalState) (vars : EnvVars) (now : GoTime) :
    Except IOErr GlobalState :=
  let mod := resolveMod vars.loggerMod
  let lType := resolveType vars.loggerType
  let sPath := resolveServicePath vars.loggerServicePath
  let inst := build sPath mod lType now
  match selectHandler env mod inst.logsDict now with
  | .error e => .error e
  | .ok handler =>
    let inst := setLogger inst handler
    let inst := if mod = ModProd then startWatcher inst else inst
    .ok { instSlot := some inst, slogDefault := inst.slogLogger }

/-- `func CreateProdLogger(logsDict Path)`: default the path if empty,
build a production logger, wire the prod handler, start the watcher,
overwrite the singleton and the `slog` default. -/
def CreateProdLogger (env : IOEnv) (g : GlobalState) (logsDict : LogPath)
    (now : GoTime) : Except IOErr GlobalState :=
  let logsDict := resolveServicePath logsDict
  let logger := build logsDict ModProd DefaultType now
  match prodHandler env logsDict now with
  | .error e => .error e
  | .ok handler =>
    let logger := setLogger logger handler
    let logger := startWatcher logger
    .ok { instSlot := some logger, slogDefault := logger.slogLogger }

/-- `func CreateDevLogger()`: build a dev logger with an empty path, wire
the dev handler, overwrite the singleton and the `slog` default (never
starts a watcher, never fails). -/
def CreateDevLogger (g : GlobalState) (now : GoTime) : GlobalState :=
  let logger := build "" ModDev DefaultType now
  let logger := setLogger logger devHandler
  { instSlot := some logger, slogDefault := logger.slogLogger }

/-- `func CreateRequestLogger(mod Mod, logsDict Path) *Logger`: default the
path to the request default if empty, build with category `request`, wire
the prod handler and watcher only when `mod == ModProd`, and return the
fresh instance without touching the globals. -/
def CreateRequestLogger (env : IOEnv) (g : GlobalState) (mod : Mod)
    (logsDict : LogPath) (now : GoTime) :
    Except IOErr (GlobalState × Logger) :=
  let logsDict := resolveRequestPath logsDict
  let logger := build logsDict mod TypeRequest now
  if mod = ModProd then
    match prodHandler env logsDict now with
    | .error e => .error e
    | .ok handler =>
      let logger := startWatcher logger
      .ok (g, setLogger logger handler)
  else
    .ok (g, setLogger logger devHandler)

/-! ## Fine-grained model of the rotation's critical sections

The watcher body performs the swap in **two** separate exclusive-lock
sections: `setLogger` (lines 103, via `ll.Lock()` inside `setLogger`)
writes the sink, and then a second `ll.Lock(); ll.today = time.Now();
ll.Unlock()` (lines 104-106) writes the date.  An emit holding `RLock`
can be scheduled between the two.  We model the rotation as the ordered
list of its two atomic field writes and let an observer read the shared
state after any prefix of them. -/

/-- The fields of `Logger` that the rotation writes and an emit can read. -/
structure ShState where
  sink : Handler
  date : GoTime
  deriving DecidableEq, Repr

/-- The two atomic (lock-protected) writes performed by a rotation, in
program order: first the sink (`setLogger`), then the date. -/
inductive RotAction where
  | setSink
  | setDate
  deriving DecidableEq, Repr

/-- Effect of one critical section on the shared state. -/
def applyAction (newSink : Handler) (newDate : GoTime) (s : ShState) :
    RotAction → ShState
  | .setSink => { s with sink := newSink }
  | .setDate => { s with date := newDate }

/-- The rotation's critical sections in program order (watcher body,
lines 103-106). -/
def rotationProgram : List RotAction := [.setSink, .setDate]

/-- What an emit scheduled after the first `k` critical sections of a
rotation observes. -/
def observeAfter (s : ShState) (newSink : Handler) (newDate : GoTime)
    (k : Nat) : ShState :=
  (rotationProgram.take k).foldl (applyAction newSink newDate) s

/-! ## Theorems -/

/-- C6: for every mode other than `"prod"` — including unrecognized
non-empty values — the handler factory returns the development console
sink; unrecognized modes silently fall through rather than failing. -/
theorem c6_nonprod_mode_falls_through_to_dev (env : IOEnv) (mod : Mod)
    (path : LogPath) (now : GoTime) (h : mod ≠ ModProd) :
    selectHandler env mod path now = .ok devHandler := by
  simp [selectHandler, h]

/-- Witness for C6 at the unrecognized mode `"staging"`. -/
theorem c6_witness :
    selectHandler okEnv "staging" "./logs/" ⟨2024, 5, 3⟩ = .ok devHandler :=
  c6_nonprod_mode_falls_through_to_dev okEnv "staging" "./logs/" ⟨2024, 5, 3⟩
    (by decide)

/-- C2 counterexample: for the path `"./logs"` (no trailing separator) and
the date 2024-05-03, `openLogFile` opens `./logs2024-05-03.txt`, which is
not `./logs/2024-05-03.txt`: no `/` separator is inserted between the path
and the date. -/
theorem c2_counterexample :
    openLogFile okEnv "./logs" ⟨2024, 5, 3⟩ =
      .ok ⟨"./logs2024-05-03.txt", true⟩ ∧
    ("./logs2024-05-03.txt" : String) ≠ "./logs/2024-05-03.txt" := by
  constructor
  · rfl
  · decide

/-- Associativity of string concatenation, via the underlying data. -/
theorem strAppendAssoc (a b c : String) : a ++ b ++ c = a ++ (b ++ c) := by
  apply String.ext
  simp [String.data_append, List.append_assoc]

/-- C2 amended: the file opened is named by plain concatenation
`path ++ YYYY-MM-DD ++ ".txt"` with no separator inserted; consequently the
opened file is `<base>/<YYYY-MM-DD>.txt` exactly for paths that themselves
end in `/`, written `base ++ "/"`. -/
theorem c2_amended_concatenated_name (path base : LogPath) (now : GoTime) :
    openLogFile okEnv path now =
      .ok ⟨path ++ (formatDateOnly now ++ ".txt"), true⟩ ∧
    openLogFile okEnv (base ++ "/") now =
      .ok ⟨base ++ "/" ++ formatDateOnly now ++ ".txt", true⟩ := by
  refine ⟨rfl, ?_⟩
  have h1 : openLogFile okEnv (base ++ "/") now =
      .ok ⟨(base ++ "/") ++ (formatDateOnly now ++ ".txt"), true⟩ := rfl
  rw [h1]
  simp [strAppendAssoc]

/-- C3: one pass of the watcher's check rotates (opens and swaps) iff the
stored date's day-of-month differs from the current one, and a second check
within the same calendar day performs no rotation and leaves the logger
unchanged. -/
theorem c3_rotate_iff_day_of_month_differs (env : IOEnv) (ll : Logger)
    (now now2 : GoTime) (l1 : Logger) (r1 : Bool)
    (h : watcherCheck env ll now = .ok (l1, r1))
    (hday : GoTime.Day now2 = GoTime.Day now) :
    (r1 = true ↔ GoTime.Day ll.today ≠ GoTime.Day now) ∧
    watcherCheck env l1 now2 = .ok (l1, false) := by
  unfold watcherCheck at h
  by_cases hd : GoTime.Day ll.today ≠ GoTime.Day now
  · rw [if_pos hd] at h
    cases hph : prodHandler env ll.logsDict now with
    | error e => rw [hph] at h; cases h
    | ok hh =>
      rw [hph] at h
      injection h with h
      injection h with hl hr
      subst hl
      refine ⟨by simp [← hr, hd], ?_⟩
      unfold watcherCheck
      rw [if_neg]
      simp [setLogger, GoTime.Day, hday]
      have : GoTime.Day now2 = now2.day := rfl
      simp [GoTime.Day] at hday
      omega
  · rw [if_neg hd] at h
    injection h with h
    injection h with hl hr
    subst hl
    push_neg at hd
    refine ⟨by simp [← hr, hd], ?_⟩
    unfold watcherCheck
    rw [if_neg]
    simp [GoTime.Day] at hday hd ⊢
    omega

/-- Witness for C3: a production logger last rotated 2024-05-02, checked
twice on 2024-05-03. -/
theorem c3_witness :
    ((true : Bool) = true ↔
      GoTime.Day (⟨2024, 5, 2⟩ : GoTime) ≠ GoTime.Day ⟨2024, 5, 3⟩) ∧
    watcherCheck okEnv
      ⟨some (.jsonProd ⟨"./logs/service_logs/2024-05-03.txt", true⟩), none,
        DefaultServicePath, ModProd, TypeService, ⟨2024, 5, 3⟩, true⟩
      ⟨2024, 5, 3⟩ =
      .ok (⟨some (.jsonProd ⟨"./logs/service_logs/2024-05-03.txt", true⟩),
        none, DefaultServicePath, ModProd, TypeService, ⟨2024, 5, 3⟩, true⟩,
        false) :=
  c3_rotate_iff_day_of_month_differs okEnv
    ⟨some (.jsonProd ⟨"./logs/service_logs/2024-05-02.txt", true⟩), none,
      DefaultServicePath, ModProd, TypeService, ⟨2024, 5, 2⟩, true⟩
    ⟨2024, 5, 3⟩ ⟨2024, 5, 3⟩
    ⟨some (.jsonProd ⟨"./logs/service_logs/2024-05-03.txt", true⟩), none,
      DefaultServicePath, ModProd, TypeService, ⟨2024, 5, 3⟩, true⟩
    true (by decide) (by decide)

/-- C4 counterexample: an emit scheduled after the watcher's first critical
section (the `setLogger` sink write) but before its second (the `today`
write) observes the new sink together with the old date — neither the
complete pre-swap state nor the complete post-swap state.  Concretely:
rotating from the 2024-05-02 file to the 2024-05-03 file. -/
theorem c4_counterexample :
    observeAfter
      ⟨.jsonProd ⟨"./logs/service_logs/2024-05-02.txt", true⟩, ⟨2024, 5, 2⟩⟩
      (.jsonProd ⟨"./logs/service_logs/2024-05-03.txt", true⟩)
      ⟨2024, 5, 3⟩ 1 ≠
      ⟨.jsonProd ⟨"./logs/service_logs/2024-05-02.txt", true⟩,
        ⟨2024, 5, 2⟩⟩ ∧
    observeAfter
      ⟨.jsonProd ⟨"./logs/service_logs/2024-05-02.txt", true⟩, ⟨2024, 5, 2⟩⟩
      (.jsonProd ⟨"./logs/service_logs/2024-05-03.txt", true⟩)
      ⟨2024, 5, 3⟩ 1 ≠
      ⟨.jsonProd ⟨"./logs/service_logs/2024-05-03.txt", true⟩,
        ⟨2024, 5, 3⟩⟩ := by
  constructor
  · decide
  · decide

/-- C4 amended: each of the rotation's two field writes runs under the
exclusive lock, so an emit never observes a torn sink — at every
interleaving point the observed sink is exactly the old or the new handler,
the observation before any write is the complete pre-swap state, and the
observation after both writes is the complete post-swap state; but because
the sink and the date are written in two separate critical sections, the
observation between them (`k = 1`) is the new sink with the old date. -/
theorem c4_amended_sink_untorn_date_lags (s : ShState) (ns : Handler)
    (nd : GoTime) (k : Nat) :
    ((observeAfter s ns nd k).sink = s.sink ∨
      (observeAfter s ns nd k).sink = ns) ∧
    observeAfter s ns nd 0 = s ∧
    observeAfter s ns nd 1 = ⟨ns, s.date⟩ ∧
    observeAfter s ns nd (k + 2) = ⟨ns, nd⟩ := by
  refine ⟨?_, rfl, rfl, ?_⟩
  · match k with
    | 0 => exact Or.inl rfl
    | 1 => exact Or.inr rfl
    | n + 2 =>
      right
      simp [observeAfter, rotationProgram, applyAction, List.take_succ_cons]
  · simp [observeAfter, rotationProgram, applyAction, List.take_succ_cons]

/-- If directory creation or file opening fails, `prodHandler` fails (in
the source it panics) with that error, for every path. -/
theorem prodHandler_error_of_ioFailure (env : IOEnv) (now : GoTime)
    (hf : env.mkdirErr ≠ none ∨ env.openErr ≠ none) :
    ∃ e, ∀ q : LogPath, prodHandler env q now = .error e := by
  cases hmk : env.mkdirErr with
  | some e => exact ⟨e, fun q => by simp [prodHandler, openLogFile, hmk]⟩
  | none =>
    cases hop : env.openErr with
    | some e =>
      exact ⟨e, fun q => by simp [prodHandler, openLogFile, hmk, hop]⟩
    | none =>
      cases hf with
      | inl h => exact absurd hmk h
      | inr h => exact absurd hop h

/-- If both filesystem calls succeed, `prodHandler` returns the JSON
handler over the freshly opened dated file. -/
theorem prodHandler_ok_of_okIO (env : IOEnv) (now : GoTime) (q : LogPath)
    (hmk : env.mkdirErr = none) (hop : env.openErr = none) :
    prodHandler env q now = .ok (.jsonProd ⟨logFileName q now, true⟩) := by
  simp [prodHandler, openLogFile, hmk, hop]

/-- A successful `prodHandler` is the JSON handler over the dated file. -/
theorem prodHandler_ok_shape (env : IOEnv) (q : LogPath) (now : GoTime)
    (hh : Handler) (h : prodHandler env q now = .ok hh) :
    hh = .jsonProd ⟨logFileName q now, true⟩ := by
  cases hmk : env.mkdirErr with
  | some e => simp [prodHandler, openLogFile, hmk] at h
  | none =>
    cases hop : env.openErr with
    | some e => simp [prodHandler, openLogFile, hmk, hop] at h
    | none =>
      simp [prodHandler, openLogFile, hmk, hop] at h
      exact h.symm

/-- C1: for every (mode, category, path) configuration, a construction that
completes yields a logger with a non-empty active sink, and when the
resulting mode is production the instance holds (inside its active sink)
an open file handle named after the instance's directory path and the
construction date. -/
theorem c1_construction_yields_sink_and_prod_handle (env : IOEnv)
    (g : GlobalState) (vars : EnvVars) (now : GoTime) (g2 : GlobalState)
    (l : Logger) (h : initLogger env g vars now = .ok g2)
    (hl : g2.instSlot = some l) :
    l.slogLogger ≠ none ∧
    (l.mod = ModProd →
      l.slogLogger =
        some (.jsonProd ⟨logFileName l.logsDict now, true⟩)) := by
  unfold initLogger at h
  by_cases hm : resolveMod vars.loggerMod = ModProd
  · cases hph : prodHandler env (resolveServicePath vars.loggerServicePath)
        now with
    | error e => simp [selectHandler, hm, build, hph] at h
    | ok hh =>
      have hshape := prodHandler_ok_shape env
        (resolveServicePath vars.loggerServicePath) now hh hph
      subst hshape
      simp [selectHandler, hm, build, hph, startWatcher, setLogger] at h
      subst h
      simp at hl
      subst hl
      simp
  · simp [selectHandler, hm, build, setLogger] at h
    subst h
    simp at hl
    subst hl
    simp [hm]

/-- Witness for C1: production mode, service category, path `/tmp/t1/`,
constructed on 2024-05-03. -/
theorem c1_witness :
    (⟨some (.jsonProd ⟨"/tmp/t1/2024-05-03.txt", true⟩), none, "/tmp/t1/",
      "prod", "service", ⟨2024, 5, 3⟩, true⟩ : Logger).slogLogger ≠ none ∧
    ((⟨some (.jsonProd ⟨"/tmp/t1/2024-05-03.txt", true⟩), none, "/tmp/t1/",
      "prod", "service", ⟨2024, 5, 3⟩, true⟩ : Logger).mod = ModProd →
      (⟨some (.jsonProd ⟨"/tmp/t1/2024-05-03.txt", true⟩), none, "/tmp/t1/",
        "prod", "service", ⟨2024, 5, 3⟩, true⟩ : Logger).slogLogger =
        some (.jsonProd ⟨logFileName
          (⟨some (.jsonProd ⟨"/tmp/t1/2024-05-03.txt", true⟩), none,
            "/tmp/t1/", "prod", "service", ⟨2024, 5, 3⟩, true⟩ :
              Logger).logsDict ⟨2024, 5, 3⟩, true⟩)) :=
  c1_construction_yields_sink_and_prod_handle okEnv ⟨none, none⟩
    ⟨"prod", "service", "/tmp/t1/"⟩ ⟨2024, 5, 3⟩
    ⟨some ⟨some (.jsonProd ⟨"/tmp/t1/2024-05-03.txt", true⟩), none,
      "/tmp/t1/", "prod", "service", ⟨2024, 5, 3⟩, true⟩,
      some (.jsonProd ⟨"/tmp/t1/2024-05-03.txt", true⟩)⟩
    ⟨some (.jsonProd ⟨"/tmp/t1/2024-05-03.txt", true⟩), none, "/tmp/t1/",
      "prod", "service", ⟨2024, 5, 3⟩, true⟩
    (by decide) rfl

/-- C7: when directory creation or file opening fails, every construction
path that builds a production sink aborts (the source panics) instead of
returning a logger with a broken sink: the environment-driven startup with
a production mode, `CreateProdLogger`, and `CreateRequestLogger` in
production mode all fail to produce an instance. -/
theorem c7_io_failure_aborts_construction (env : IOEnv) (g : GlobalState)
    (vars : EnvVars) (now : GoTime) (p : LogPath)
    (hf : env.mkdirErr ≠ none ∨ env.openErr ≠ none)
    (hm : resolveMod vars.loggerMod = ModProd) :
    exceptIsOk (initLogger env g vars now) = false ∧
    exceptIsOk (CreateProdLogger env g p now) = false ∧
    exceptIsOk (CreateRequestLogger env g ModProd p now) = false := by
  obtain ⟨e, he⟩ := prodHandler_error_of_ioFailure env now hf
  refine ⟨?_, ?_, ?_⟩
  · simp [initLogger, selectHandler, hm, build, he, exceptIsOk]
  · simp [CreateProdLogger, he, exceptIsOk]
  · simp [CreateRequestLogger, he, exceptIsOk]

/-- Witness for C7: `os.MkdirAll` fails, mode `"prod"`. -/
theorem c7_witness :
    exceptIsOk (initLogger ⟨some .mkdirFailed, none⟩ ⟨none, none⟩
      ⟨"prod", "", ""⟩ ⟨2024, 5, 3⟩) = false ∧
    exceptIsOk (CreateProdLogger ⟨some .mkdirFailed, none⟩ ⟨none, none⟩
      "" ⟨2024, 5, 3⟩) = false ∧
    exceptIsOk (CreateRequestLogger ⟨some .mkdirFailed, none⟩ ⟨none, none⟩
      ModProd "" ⟨2024, 5, 3⟩) = false :=
  c7_io_failure_aborts_construction ⟨some .mkdirFailed, none⟩ ⟨none, none⟩
    ⟨"prod", "", ""⟩ ⟨2024, 5, 3⟩ "" (by decide) (by decide)

/-- C5 counterexample: `CreateRequestLogger` given empty mode and path does
not produce the documented `init` defaults: the path defaults to
`./logs/request_logs/`, not `./logs/service_logs/`, and the stored mode
stays empty instead of becoming the development default. -/
theorem c5_counterexample :
    CreateRequestLogger okEnv ⟨none, none⟩ "" "" ⟨2024, 5, 3⟩ =
      .ok (⟨none, none⟩,
        ⟨some devHandler, none, DefaultRequestPath, "", TypeRequest,
          ⟨2024, 5, 3⟩, false⟩) ∧
    (DefaultRequestPath : LogPath) ≠ DefaultServicePath ∧
    ("" : Mod) ≠ DefaultMod := by
  refine ⟨rfl, by decide, by decide⟩

/-- C5 amended: the environment-driven startup substitutes the documented
defaults (development mode, service category, `./logs/service_logs/`) for
empty values; `CreateProdLogger` substitutes `./logs/service_logs/` for an
empty path; but `CreateRequestLogger` substitutes `./logs/request_logs/`
for an empty path, always uses the request category, and stores the given
mode unchanged (an empty mode is kept, falling to the development sink). -/
theorem c5_amended_default_substitution (env : IOEnv) (g : GlobalState)
    (now : GoTime) (gi gp g2 : GlobalState) (li lp l2 : Logger) (m : Mod)
    (hi : initLogger env g ⟨"", "", ""⟩ now = .ok gi)
    (hil : gi.instSlot = some li)
    (hp : CreateProdLogger env g "" now = .ok gp)
    (hpl : gp.instSlot = some lp)
    (hr : CreateRequestLogger env g m "" now = .ok (g2, l2)) :
    (li.mod = DefaultMod ∧ li.loggerType = DefaultType ∧
      li.logsDict = DefaultServicePath) ∧
    lp.logsDict = DefaultServicePath ∧
    (l2.logsDict = DefaultRequestPath ∧ l2.mod = m ∧
      l2.loggerType = TypeRequest) := by
  have hne : ¬ ((DefaultMod : Mod) = ModProd) := by decide
  refine ⟨?_, ?_, ?_⟩
  · simp [initLogger, resolveMod, resolveType, resolveServicePath, Mod.Empty,
      LogType.Empty, LogPath.Empty, selectHandler, hne, build,
      setLogger] at hi
    subst hi
    simp at hil
    subst hil
    exact ⟨rfl, rfl, rfl⟩
  · cases hph : prodHandler env (resolveServicePath "") now with
    | error e => simp [CreateProdLogger, hph] at hp
    | ok hh =>
      simp [CreateProdLogger, hph, build, setLogger, startWatcher] at hp
      subst hp
      simp at hpl
      subst hpl
      simp [resolveServicePath, LogPath.Empty]
  · by_cases hmp : m = ModProd
    · cases hph : prodHandler env (resolveRequestPath "") now with
      | error e => simp [CreateRequestLogger, hmp, hph] at hr
      | ok hh =>
        simp [CreateRequestLogger, hmp, hph, build, setLogger,
          startWatcher] at hr
        obtain ⟨hg, hl2⟩ := hr
        rw [← hl2]
        simp [resolveRequestPath, LogPath.Empty, hmp]
    · simp [CreateRequestLogger, hmp, build, setLogger] at hr
      obtain ⟨hg, hl2⟩ := hr
      rw [← hl2]
      simp [resolveRequestPath, LogPath.Empty]

/-- Witness for C5 amended: all-empty environment, empty constructor paths,
request mode `"dev"`, on 2024-05-03, in a succeeding filesystem. -/
theorem c5_witness :
    ((⟨some devHandler, none, DefaultServicePath, DefaultMod, DefaultType,
        ⟨2024, 5, 3⟩, false⟩ : Logger).mod = DefaultMod ∧
      (⟨some devHandler, none, DefaultServicePath, DefaultMod, DefaultType,
        ⟨2024, 5, 3⟩, false⟩ : Logger).loggerType = DefaultType ∧
      (⟨some devHandler, none, DefaultServicePath, DefaultMod, DefaultType,
        ⟨2024, 5, 3⟩, false⟩ : Logger).logsDict = DefaultServicePath) ∧
    (⟨some (.jsonProd ⟨"./logs/service_logs/2024-05-03.txt", true⟩), none,
      DefaultServicePath, ModProd, DefaultType, ⟨2024, 5, 3⟩, true⟩ :
        Logger).logsDict = DefaultServicePath ∧
    ((⟨some devHandler, none, DefaultRequestPath, "dev", TypeRequest,
        ⟨2024, 5, 3⟩, false⟩ : Logger).logsDict = DefaultRequestPath ∧
      (⟨some devHandler, none, DefaultRequestPath, "dev", TypeRequest,
        ⟨2024, 5, 3⟩, false⟩ : Logger).mod = "dev" ∧
      (⟨some devHandler, none, DefaultRequestPath, "dev", TypeRequest,
        ⟨2024, 5, 3⟩, false⟩ : Logger).loggerType = TypeRequest) :=
  c5_amended_default_substitution okEnv ⟨none, none⟩ ⟨2024, 5, 3⟩
    ⟨some ⟨some devHandler, none, DefaultServicePath, DefaultMod,
      DefaultType, ⟨2024, 5, 3⟩, false⟩, some devHandler⟩
    ⟨some ⟨some (.jsonProd ⟨"./logs/service_logs/2024-05-03.txt", true⟩),
      none, DefaultServicePath, ModProd, DefaultType, ⟨2024, 5, 3⟩, true⟩,
      some (.jsonProd ⟨"./logs/service_logs/2024-05-03.txt", true⟩)⟩
    ⟨none, none⟩
    ⟨some devHandler, none, DefaultServicePath, DefaultMod, DefaultType,
      ⟨2024, 5, 3⟩, false⟩
    ⟨some (.jsonProd ⟨"./logs/service_logs/2024-05-03.txt", true⟩), none,
      DefaultServicePath, ModProd, DefaultType, ⟨2024, 5, 3⟩, true⟩
    ⟨some devHandler, none, DefaultRequestPath, "dev", TypeRequest,
      ⟨2024, 5, 3⟩, false⟩
    "dev" (by decide) rfl (by decide) rfl (by decide)

/-- C8: across all four construction paths, the rotation watcher is started
iff the instance's mode is production; a development-mode logger never
starts a watcher and its state (in particular its sink) is unchanged by any
run of the background loop. -/
theorem c8_watcher_started_iff_production (env : IOEnv) (g : GlobalState)
    (vars : EnvVars) (now : GoTime) (gi : GlobalState) (li : Logger)
    (m : Mod) (p q : LogPath) (g2 gp : GlobalState) (l2 lp ld : Logger)
    (ds : List GoTime)
    (hi : initLogger env g vars now = .ok gi) (hil : gi.instSlot = some li)
    (hr : CreateRequestLogger env g m p now = .ok (g2, l2))
    (hp : CreateProdLogger env g q now = .ok gp)
    (hpl : gp.instSlot = some lp)
    (hd : (CreateDevLogger g now).instSlot = some ld) :
    (li.watcherStarted = true ↔ li.mod = ModProd) ∧
    (l2.watcherStarted = true ↔ l2.mod = ModProd) ∧
    (lp.watcherStarted = true ∧ lp.mod = ModProd) ∧
    (ld.watcherStarted = false ∧ ld.mod = ModDev ∧
      runWatcher env ld ds = .ok ld) := by
  refine ⟨?_, ?_, ?_, ?_⟩
  · unfold initLogger at hi
    by_cases hm : resolveMod vars.loggerMod = ModProd
    · cases hph : prodHandler env (resolveServicePath vars.loggerServicePath)
          now with
      | error e => simp [selectHandler, hm, build, hph] at hi
      | ok hh =>
        simp [selectHandler, hm, build, hph, startWatcher, setLogger] at hi
        subst hi
        simp at hil
        subst hil
        simp
    · simp [selectHandler, hm, build, setLogger] at hi
      subst hi
      simp at hil
      subst hil
      simp [hm]
  · unfold CreateRequestLogger at hr
    by_cases hmp : m = ModProd
    · cases hph : prodHandler env (resolveRequestPath p) now with
      | error e => simp [hmp, hph] at hr
      | ok hh =>
        simp [hmp, hph, build, setLogger, startWatcher] at hr
        obtain ⟨hg, hl2⟩ := hr
        rw [← hl2]
        simp [hmp]
    · simp [hmp, build, setLogger] at hr
      obtain ⟨hg, hl2⟩ := hr
      rw [← hl2]
      simp [hmp]
  · cases hph : prodHandler env (resolveServicePath q) now with
    | error e => simp [CreateProdLogger, hph] at hp
    | ok hh =>
      simp [CreateProdLogger, hph, build, setLogger, startWatcher] at hp
      subst hp
      simp at hpl
      subst hpl
      exact ⟨rfl, rfl⟩
  · simp [CreateDevLogger, build, setLogger] at hd
    subst hd
    refine ⟨rfl, rfl, ?_⟩
    simp [runWatcher]

/-- Witness for C8: the four constructors run concretely on 2024-05-03 with
a succeeding filesystem, mode `"prod"` for the startup path, request mode
`"staging"`, and one watcher wakeup date. -/
theorem c8_witness :
    ((⟨some (.jsonProd ⟨"/tmp/t8/2024-05-03.txt", true⟩), none, "/tmp/t8/",
      "prod", "service", ⟨2024, 5, 3⟩, true⟩ : Logger).watcherStarted =
        true ↔
      (⟨some (.jsonProd ⟨"/tmp/t8/2024-05-03.txt", true⟩), none, "/tmp/t8/",
        "prod", "service", ⟨2024, 5, 3⟩, true⟩ : Logger).mod = ModProd) ∧
    ((⟨some devHandler, none, "/tmp/r8/", "staging", TypeRequest,
      ⟨2024, 5, 3⟩, false⟩ : Logger).watcherStarted = true ↔
      (⟨some devHandler, none, "/tmp/r8/", "staging", TypeRequest,
        ⟨2024, 5, 3⟩, false⟩ : Logger).mod = ModProd) ∧
    ((⟨some (.jsonProd ⟨"/tmp/p8/2024-05-03.txt", true⟩), none, "/tmp/p8/",
      ModProd, DefaultType, ⟨2024, 5, 3⟩, true⟩ : Logger).watcherStarted =
        true ∧
      (⟨some (.jsonProd ⟨"/tmp/p8/2024-05-03.txt", true⟩), none, "/tmp/p8/",
        ModProd, DefaultType, ⟨2024, 5, 3⟩, true⟩ : Logger).mod =
        ModProd) ∧
    ((⟨some devHandler, none, "", ModDev, DefaultType, ⟨2024, 5, 3⟩,
      false⟩ : Logger).watcherStarted = false ∧
      (⟨some devHandler, none, "", ModDev, DefaultType, ⟨2024, 5, 3⟩,
        false⟩ : Logger).mod = ModDev ∧
      runWatcher okEnv ⟨some devHandler, none, "", ModDev, DefaultType,
        ⟨2024, 5, 3⟩, false⟩ [⟨2024, 5, 4⟩] =
        .ok ⟨some devHandler, none, "", ModDev, DefaultType, ⟨2024, 5, 3⟩,
          false⟩) :=
  c8_watcher_started_iff_production okEnv ⟨none, none⟩
    ⟨"prod", "service", "/tmp/t8/"⟩ ⟨2024, 5, 3⟩
    ⟨some ⟨some (.jsonProd ⟨"/tmp/t8/2024-05-03.txt", true⟩), none,
      "/tmp/t8/", "prod", "service", ⟨2024, 5, 3⟩, true⟩,
      some (.jsonProd ⟨"/tmp/t8/2024-05-03.txt", true⟩)⟩
    ⟨some (.jsonProd ⟨"/tmp/t8/2024-05-03.txt", true⟩), none, "/tmp/t8/",
      "prod", "service", ⟨2024, 5, 3⟩, true⟩
    "staging" "/tmp/r8/" "/tmp/p8/" ⟨none, none⟩
    ⟨some ⟨some (.jsonProd ⟨"/tmp/p8/2024-05-03.txt", true⟩), none,
      "/tmp/p8/", ModProd, DefaultType, ⟨2024, 5, 3⟩, true⟩,
      some (.jsonProd ⟨"/tmp/p8/2024-05-03.txt", true⟩)⟩
    ⟨some devHandler, none, "/tmp/r8/", "staging", TypeRequest,
      ⟨2024, 5, 3⟩, false⟩
    ⟨some (.jsonProd ⟨"/tmp/p8/2024-05-03.txt", true⟩), none, "/tmp/p8/",
      ModProd, DefaultType, ⟨2024, 5, 3⟩, true⟩
    ⟨some devHandler, none, "", ModDev, DefaultType, ⟨2024, 5, 3⟩, false⟩
    [⟨2024, 5, 4⟩]
    (by decide) rfl (by decide) (by decide) rfl rfl

/-- C9: `CreateRequestLogger` returns a fresh instance determined only by
its arguments and leaves the process-wide globals untouched: the singleton
returned by `Get` and the process default logger are the same before and
after the call, and running the constructor from any other global state
yields the very same logger. -/
theorem c9_request_logger_leaves_singleton_unchanged (env : IOEnv)
    (g g3 : GlobalState) (mod : Mod) (path : LogPath) (now : GoTime)
    (g2 : GlobalState) (l : Logger)
    (h : CreateRequestLogger env g mod path now = .ok (g2, l)) :
    g2 = g ∧ Get g2 = Get g ∧ g2.slogDefault = g.slogDefault ∧
    CreateRequestLogger env g3 mod path now = .ok (g3, l) := by
  unfold CreateRequestLogger at h ⊢
  by_cases hmp : mod = ModProd
  · cases hph : prodHandler env (resolveRequestPath path) now with
    | error e => simp [hmp, hph] at h
    | ok hh =>
      simp [hmp, hph] at h ⊢
      obtain ⟨hg, hl⟩ := h
      subst hg
      exact ⟨rfl, rfl, rfl, hl⟩
  · simp [hmp] at h ⊢
    obtain ⟨hg, hl⟩ := h
    subst hg
    exact ⟨rfl, rfl, rfl, hl⟩

/-- Witness for C9: request mode `"dev"`, path `/tmp/r9/`, called from a
global state holding no singleton, checked against a second global state. -/
theorem c9_witness :
    (⟨none, none⟩ : GlobalState) = ⟨none, none⟩ ∧
    Get ⟨none, none⟩ = Get ⟨none, none⟩ ∧
    (⟨none, none⟩ : GlobalState).slogDefault =
      (⟨none, none⟩ : GlobalState).slogDefault ∧
    CreateRequestLogger okEnv
      ⟨some ⟨some devHandler, none, "", ModDev, DefaultType, ⟨2024, 5, 3⟩,
        false⟩, some devHandler⟩ "dev" "/tmp/r9/" ⟨2024, 5, 3⟩ =
      .ok (⟨some ⟨some devHandler, none, "", ModDev, DefaultType,
        ⟨2024, 5, 3⟩, false⟩, some devHandler⟩,
        ⟨some devHandler, none, "/tmp/r9/", "dev", TypeRequest,
          ⟨2024, 5, 3⟩, false⟩) :=
  c9_request_logger_leaves_singleton_unchanged okEnv ⟨none, none⟩
    ⟨some ⟨some devHandler, none, "", ModDev, DefaultType, ⟨2024, 5, 3⟩,
      false⟩, some devHandler⟩
    "dev" "/tmp/r9/" ⟨2024, 5, 3⟩ ⟨none, none⟩
    ⟨some devHandler, none, "/tmp/r9/", "dev", TypeRequest, ⟨2024, 5, 3⟩,
      false⟩
    (by decide)

/-- C10: a watcher check mutates only the active sink and the
last-rotation date: mode, category, directory path, the (never-assigned)
`logFile` field and the watcher flag are unchanged; when it does rotate,
the new sink's file is opened under the instance's own directory path at
the current date. -/
theorem c10_rotation_mutates_only_sink_and_date (env : IOEnv) (ll : Logger)
    (now : GoTime) (l2 : Logger) (r : Bool)
    (h : watcherCheck env ll now = .ok (l2, r)) :
    l2.mod = ll.mod ∧ l2.loggerType = ll.loggerType ∧
    l2.logsDict = ll.logsDict ∧ l2.watcherStarted = ll.watcherStarted ∧
    l2.logFile = ll.logFile ∧
    (r = false → l2 = ll) ∧
    (r = true →
      l2.slogLogger =
        some (.jsonProd ⟨logFileName ll.logsDict now, true⟩) ∧
      l2.today = now) := by
  unfold watcherCheck at h
  by_cases hd : GoTime.Day ll.today ≠ GoTime.Day now
  · rw [if_pos hd] at h
    cases hph : prodHandler env ll.logsDict now with
    | error e => rw [hph] at h; cases h
    | ok hh =>
      have hshape := prodHandler_ok_shape env ll.logsDict now hh hph
      subst hshape
      rw [hph] at h
      injection h with h
      injection h with hl hr
      rw [← hl, ← hr]
      refine ⟨rfl, rfl, rfl, rfl, rfl, ?_, ?_⟩
      · intro hc
        exact Bool.noConfusion hc
      · intro _
        exact ⟨rfl, rfl⟩
  · rw [if_neg hd] at h
    injection h with h
    injection h with hl hr
    rw [← hl, ← hr]
    refine ⟨rfl, rfl, rfl, rfl, rfl, fun _ => rfl, ?_⟩
    intro hc
    exact Bool.noConfusion hc

/-- Witness for C10: a rotation from the 2024-05-02 file to the 2024-05-03
file under `./logs/service_logs/`. -/
theorem c10_witness :
    (⟨some (.jsonProd ⟨"./logs/service_logs/2024-05-03.txt", true⟩), none,
      DefaultServicePath, ModProd, TypeService, ⟨2024, 5, 3⟩, true⟩ :
        Logger).mod =
      (⟨some (.jsonProd ⟨"./logs/service_logs/2024-05-02.txt", true⟩), none,
        DefaultServicePath, ModProd, TypeService, ⟨2024, 5, 2⟩, true⟩ :
          Logger).mod ∧
    (⟨some (.jsonProd ⟨"./logs/service_logs/2024-05-03.txt", true⟩), none,
      DefaultServicePath, ModProd, TypeService, ⟨2024, 5, 3⟩, true⟩ :
        Logger).loggerType =
      (⟨some (.jsonProd ⟨"./logs/service_logs/2024-05-02.txt", true⟩), none,
        DefaultServicePath, ModProd, TypeService, ⟨2024, 5, 2⟩, true⟩ :
          Logger).loggerType ∧
    (⟨some (.jsonProd ⟨"./logs/service_logs/2024-05-03.txt", true⟩), none,
      DefaultServicePath, ModProd, TypeService, ⟨2024, 5, 3⟩, true⟩ :
        Logger).logsDict =
      (⟨some (.jsonProd ⟨"./logs/service_logs/2024-05-02.txt", true⟩), none,
        DefaultServicePath, ModProd, TypeService, ⟨2024, 5, 2⟩, true⟩ :
          Logger).logsDict ∧
    (⟨some (.jsonProd ⟨"./logs/service_logs/2024-05-03.txt", true⟩), none,
      DefaultServicePath, ModProd, TypeService, ⟨2024, 5, 3⟩, true⟩ :
        Logger).watcherStarted =
      (⟨some (.jsonProd ⟨"./logs/service_logs/2024-05-02.txt", true⟩), none,
        DefaultServicePath, ModProd, TypeService, ⟨2024, 5, 2⟩, true⟩ :
          Logger).watcherStarted ∧
    (⟨some (.jsonProd ⟨"./logs/service_logs/2024-05-03.txt", true⟩), none,
      DefaultServicePath, ModProd, TypeService, ⟨2024, 5, 3⟩, true⟩ :
        Logger).logFile =
      (⟨some (.jsonProd ⟨"./logs/service_logs/2024-05-02.txt", true⟩), none,
        DefaultServicePath, ModProd, TypeService, ⟨2024, 5, 2⟩, true⟩ :
          Logger).logFile ∧
    ((true : Bool) = false →
      (⟨some (.jsonProd ⟨"./logs/service_logs/2024-05-03.txt", true⟩), none,
        DefaultServicePath, ModProd, TypeService, ⟨2024, 5, 3⟩, true⟩ :
          Logger) =
        ⟨some (.jsonProd ⟨"./logs/service_logs/2024-05-02.txt", true⟩),
          none, DefaultServicePath, ModProd, TypeService, ⟨2024, 5, 2⟩,
          true⟩) ∧
    ((true : Bool) = true →
      (⟨some (.jsonProd ⟨"./logs/service_logs/2024-05-03.txt", true⟩), none,
        DefaultServicePath, ModProd, TypeService, ⟨2024, 5, 3⟩, true⟩ :
          Logger).slogLogger =
        some (.jsonProd ⟨logFileName
          (⟨some (.jsonProd ⟨"./logs/service_logs/2024-05-02.txt", true⟩),
            none, DefaultServicePath, ModProd, TypeService, ⟨2024, 5, 2⟩,
            true⟩ : Logger).logsDict ⟨2024, 5, 3⟩, true⟩) ∧
      (⟨some (.jsonProd ⟨"./logs/service_logs/2024-05-03.txt", true⟩), none,
        DefaultServicePath, ModProd, TypeService, ⟨2024, 5, 3⟩, true⟩ :
          Logger).today = ⟨2024, 5, 3⟩) :=
  c10_rotation_mutates_only_sink_and_date okEnv
    ⟨some (.jsonProd ⟨"./logs/service_logs/2024-05-02.txt", true⟩), none,
      DefaultServicePath, ModProd, TypeService, ⟨2024, 5, 2⟩, true⟩
    ⟨2024, 5, 3⟩
    ⟨some (.jsonProd ⟨"./logs/service_logs/2024-05-03.txt", true⟩), none,
      DefaultServicePath, ModProd, TypeService, ⟨2024, 5, 3⟩, true⟩
    true (by decide)

end GoLogger
